import Mathlib

/-!
Verification development for the stock-vision-dash repository.

The embedded code:
* `src/utils/cacheUtils.ts` (TTL cache + refresh governor),
* `src/components/ChartCard.tsx` (deterministic series synthesizer),
* `src/utils/apiService.ts` (prediction fetch fallback and quote fallback).

Modelling conventions:
* JavaScript numbers are modelled as `ℚ` (the values occurring here are exact
  decimals; `Math.sin` / `Math.cos` / `Math.random` are abstract parameters).
* Timestamps (`Date.now()`, milliseconds) are `ℤ` passed explicitly.
* The module-level mutable tables (`cache`, `lastRefreshes`) become explicit
  states of type `String → Option _`, threaded through the operations.
* `x.toFixed(2)` followed by `parseFloat` is `round2` (round half away from
  zero agrees with round half up on the nonnegative magnitudes used here).
* The JavaScript `%` operator (remainder with the sign of the dividend) is
  `jsRem`.
-/

namespace StockVision

/-- JavaScript `%` (remainder takes the sign of the dividend) for a
positive divisor, on integers. -/
def jsRem (a b : ℤ) : ℤ :=
  if 0 ≤ a then a % b else -((-a) % b)

/-- JavaScript `x.toFixed(2)` parsed back to a number: rounding to two
decimal places. -/
def round2 (x : ℚ) : ℚ :=
  (round (100 * x) : ℤ) / 100

/-- `ticker.split("").reduce((acc, char) => acc + char.charCodeAt(0), 0)`:
the character-code seed used throughout the repository. -/
def tickerSeed (ticker : String) : ℕ :=
  (ticker.data.map Char.toNat).sum

/-! ## TTL cache (`src/utils/cacheUtils.ts`) -/

/-- `interface CacheItem { data: any; timestamp: number }`. -/
structure CacheItem (α : Type) where
  data : α
  timestamp : ℤ

/-- The module-level `cache: Record<string, CacheItem>` table. -/
def CacheState (α : Type) : Type := String → Option (CacheItem α)

/-- `const CACHE_DURATION = 30 * 60 * 1000` (30 minutes in ms). -/
def CACHE_DURATION : ℤ := 30 * 60 * 1000

/-- `getFromCache(key)`: returns the cached data, or `null` when absent, or
`null` after deleting the entry when expired.  The mutable table is made
explicit: the result pairs the returned value with the table after the call,
and `Date.now()` is the explicit argument `now`. -/
def getFromCache {α : Type} (st : CacheState α) (now : ℤ) (key : String) :
    Option α × CacheState α :=
  match st key with
  | none => (none, st)
  | some item =>
    if CACHE_DURATION < now - item.timestamp then
      (none, fun k => if k = key then none else st k)
    else
      (some item.data, st)

/-- `saveToCache(key, data)`: stores `data` under `key` with
`timestamp: Date.now()`. -/
def saveToCache {α : Type} (st : CacheState α) (now : ℤ) (key : String)
    (data : α) : CacheState α :=
  fun k => if k = key then some ⟨data, now⟩ else st k

/-- `clearCache(key?)`: the guard `if (key)` tests truthiness, so both a
missing argument and the empty string (falsy in JavaScript) fall into the
clear-everything branch; a non-empty key deletes just its own entry. -/
def clearCache {α : Type} (st : CacheState α) (key : Option String) :
    CacheState α :=
  match key with
  | some k =>
    if k = "" then fun _ => none
    else fun x => if x = k then none else st x
  | none => fun _ => none

/-- `getCacheAge(key)`: age of the entry in milliseconds, `null` when
absent. -/
def getCacheAge {α : Type} (st : CacheState α) (now : ℤ) (key : String) :
    Option ℤ :=
  match st key with
  | none => none
  | some item => some (now - item.timestamp)

/-! ## Refresh governor (`src/utils/cacheUtils.ts`) -/

/-- `const REFRESH_COOLDOWN = 10 * 60 * 1000` (10 minutes in ms). -/
def REFRESH_COOLDOWN : ℤ := 10 * 60 * 1000

/-- The module-level `lastRefreshes: Record<string, number>` table. -/
def GovState : Type := String → Option ℤ

/-- `lastRefreshes[key] || 0`: the recorded time, with `undefined` (and the
falsy recorded value `0`) replaced by `0`. -/
def lastRefreshOf (st : GovState) (key : String) : ℤ :=
  (st key).getD 0

/-- `canRefresh(key)`: `Date.now() - lastRefresh >= REFRESH_COOLDOWN`. -/
def canRefresh (st : GovState) (now : ℤ) (key : String) : Bool :=
  decide (REFRESH_COOLDOWN ≤ now - lastRefreshOf st key)

/-- `markRefreshed(key)`: `lastRefreshes[key] = Date.now()`. -/
def markRefreshed (st : GovState) (now : ℤ) (key : String) : GovState :=
  fun k => if k = key then some now else st k

/-- `getRemainingCooldown(key)`:
`Math.max(0, REFRESH_COOLDOWN - (Date.now() - lastRefresh))`. -/
def getRemainingCooldown (st : GovState) (now : ℤ) (key : String) : ℤ :=
  max 0 (REFRESH_COOLDOWN - (now - lastRefreshOf st key))

/-- `formatCooldown(ms)`: `Math.ceil(ms / 1000)` total seconds, rendered as
`"{minutes}m {seconds}s"` with `minutes = Math.floor(totalSeconds / 60)` and
`seconds = totalSeconds % 60`. -/
def formatCooldown (ms : ℚ) : String :=
  let totalSeconds : ℤ := ⌈ms / 1000⌉
  let minutes : ℤ := ⌊(totalSeconds : ℚ) / 60⌋
  let seconds : ℤ := jsRem totalSeconds 60
  toString minutes ++ "m " ++ toString seconds ++ "s"

/-! ## Interleaved cache/governor traces

For the temporal claim the two tables are combined into one system state and
an operation language over them; each operation carries the `Date.now()`
instant at which it executes. -/

/-- Combined state of the two module-level tables. -/
structure Sys (α : Type) where
  cache : CacheState α
  gov : GovState

/-- The state-mutating operations exported by `cacheUtils.ts`
(`canRefresh` / `getRemainingCooldown` / `getCacheAge` are read-only and do
not change the state, so they need no constructor). -/
inductive Op (α : Type) where
  | save (key : String) (data : α)
  | get (key : String)
  | clear (key : Option String)
  | mark (key : String)
deriving DecidableEq

/-- Effect of one operation executed at instant `now`. -/
def stepOp {α : Type} (s : Sys α) (now : ℤ) : Op α → Sys α
  | Op.save k v => { s with cache := saveToCache s.cache now k v }
  | Op.get k => { s with cache := (getFromCache s.cache now k).2 }
  | Op.clear k => { s with cache := clearCache s.cache k }
  | Op.mark k => { s with gov := markRefreshed s.gov now k }

/-- Run a list of timestamped operations in order. -/
def runOps {α : Type} (s : Sys α) : List (ℤ × Op α) → Sys α
  | [] => s
  | (t, op) :: rest => runOps (stepOp s t op) rest

/-! ## Deterministic series synthesizer (`src/components/ChartCard.tsx`) -/

/-- One chart point: `{ name: string; value: number; relativeValue?: number }`. -/
structure SeriesPoint where
  name : String
  value : ℚ
  relativeValue : Option ℚ
deriving DecidableEq

/-- The browser-environment inputs `generateRealisticStockData` reads while
labelling points: `new Date().getHours()` for the `"1d"` branch, and the
date/locale formatting (`toLocaleDateString` over a `Date` shifted backwards)
for the other branches.  Two calls at different wall-clock instants observe
different environments; the numeric walk reads none of this. -/
structure BrowserEnv where
  hours : ℤ
  fmt5d : ℕ → String
  fmtMonthDay : ℕ → String

/-- `basePrice`: `(seedValue % 500) + 50`, overridden with a fixed literal
for the well-known tickers. -/
def basePriceFor (ticker : String) : ℚ :=
  if ticker.toUpper = "META" then 587
  else if ticker.toUpper = "AAPL" then 198
  else if ticker.toUpper = "MSFT" then 417
  else if ticker.toUpper = "GOOGL" then 164
  else if ticker.toUpper = "AMZN" then 181
  else if ticker.toUpper = "TSLA" then 275
  else ((tickerSeed ticker % 500 : ℕ) : ℚ) + 50

/-- `dataPoints`: the per-period point count (`52` for `"1y"` and for any
unrecognised period string). -/
def dataPoints (period : String) : ℕ :=
  if period = "1d" then 24
  else if period = "5d" then 40
  else if period = "1mo" then 30
  else if period = "3mo" then 90
  else if period = "6mo" then 26
  else 52

/-- Base `volatility` per period. -/
def volBase (period : String) : ℚ :=
  if period = "1d" then 0.003
  else if period = "5d" then 0.008
  else if period = "1mo" then 0.015
  else if period = "3mo" then 0.025
  else if period = "6mo" then 0.04
  else 0.06

/-- Volatility after the per-ticker adjustment (`*= 2` for TSLA, `*= 0.7`
for the blue chips). -/
def volatility (ticker period : String) : ℚ :=
  if ticker.toUpper = "TSLA" then volBase period * 2
  else if ticker.toUpper = "AAPL" ∨ ticker.toUpper = "MSFT" then
    volBase period * 0.7
  else volBase period

/-- `trend`: `Math.sin(seed) * 0.5`, with the scripted overrides for
`META` + `"1d"` and `AAPL` + `"1mo"`. -/
def trendFor (sin : ℚ → ℚ) (ticker period : String) : ℚ :=
  if ticker.toUpper = "META" ∧ period = "1d" then -0.2
  else if ticker.toUpper = "AAPL" ∧ period = "1mo" then 0.3
  else sin ((tickerSeed ticker : ℚ) / 100) * 0.5

/-- The multiplicative step applied to the running price at loop index `i`:
`1 + randomFactor + trendFactor + patternFactor`. -/
def stepFactor (sin cos : ℚ → ℚ) (ticker period : String) (i : ℕ) : ℚ :=
  let seed : ℚ := (tickerSeed ticker : ℚ) / 100
  let vol := volatility ticker period
  let progress : ℚ := (i : ℚ) / (dataPoints period : ℚ)
  let randomFactor := (sin ((i : ℚ) * seed * 5) + cos ((i : ℚ) * seed * 3))
    * vol
  let trendFactor := trendFor sin ticker period * vol * 0.8 * progress
  let patternFactor := sin ((i : ℚ) / 5) * vol * 0.3
  1 + randomFactor + trendFactor + patternFactor

/-- The running `price` after `n` loop iterations (it starts at `basePrice`
and is multiplied in place once per iteration). -/
def priceAfter (sin cos : ℚ → ℚ) (ticker period : String) : ℕ → ℚ
  | 0 => basePriceFor ticker
  | n + 1 =>
    priceAfter sin cos ticker period n * stepFactor sin cos ticker period n

/-- `dateFormat` for point `i` of `n`: the `"1d"` branch is computed from
`getHours()` (JavaScript `%` semantics, so the hour can come out negative
and be rendered as such); the other branches delegate to the environment's
date formatting, applied to the backwards offset the source computes. -/
def labelFor (env : BrowserEnv) (period : String) (n i : ℕ) : String :=
  if period = "1d" then
    let hour := jsRem (env.hours + (i : ℤ) - (n : ℤ)) 24
    let formattedHour : ℤ := if jsRem hour 12 = 0 then 12 else jsRem hour 12
    let amPm := if hour < 12 ∨ hour = 24 then "AM" else "PM"
    toString formattedHour ++ amPm
  else if period = "5d" then env.fmt5d ((n - i - 1) * 3)
  else if period = "1mo" then env.fmtMonthDay (n - i - 1)
  else if period = "3mo" then env.fmtMonthDay (n - i - 1)
  else env.fmtMonthDay ((n - i - 1) * 7)

/-- `generateRealisticStockData(ticker, period)`, with `Math.sin`,
`Math.cos` and the labelling environment as explicit parameters. -/
def generateRealisticStockData (env : BrowserEnv) (sin cos : ℚ → ℚ)
    (ticker period : String) : List SeriesPoint :=
  (List.range (dataPoints period)).map fun i =>
    { name := labelFor env period (dataPoints period) i
      value := round2 (priceAfter sin cos ticker period (i + 1))
      relativeValue := none }

/-- The relative-mode post-processing in `fetchChartData`
(`if (showRelativeChange && fallbackData.length > 0)`): every point gets
`relativeValue = ((value / baseValue) - 1) * 100` with `baseValue` the first
point's value. -/
def applyRelative (data : List SeriesPoint) : List SeriesPoint :=
  match data with
  | [] => []
  | p0 :: _ =>
    data.map fun p =>
      { p with relativeValue := some ((p.value / p0.value - 1) * 100) }

/-! ## Claims about the cache and the governor -/

/-- Claim C2: `saveToCache(k, v)` followed immediately by `getFromCache(k)`
returns `v`; and when more than `CACHE_DURATION` elapses between the save and
the read, `getFromCache(k)` returns `null` and removes the entry. -/
theorem cache_ttl_roundtrip {α : Type} (st : CacheState α) (k : String)
    (v : α) (t t' : ℤ) :
    (getFromCache (saveToCache st t k v) t k).1 = some v ∧
    (CACHE_DURATION < t' - t →
      (getFromCache (saveToCache st t k v) t' k).1 = none ∧
      (getFromCache (saveToCache st t k v) t' k).2 k = none) := by
  refine ⟨?_, fun h => ⟨?_, ?_⟩⟩
  · simp [getFromCache, saveToCache, CACHE_DURATION]
  · simp [getFromCache, saveToCache, h]
  · simp [getFromCache, saveToCache, h]

/-- Witness for `cache_ttl_roundtrip` at a concrete key, payload and pair of
instants one millisecond past the TTL. -/
theorem cache_ttl_roundtrip_witness :
    (getFromCache (saveToCache (fun _ => none : CacheState ℕ) 0 "k" 7) 0
      "k").1 = some 7 ∧
    (getFromCache (saveToCache (fun _ => none : CacheState ℕ) 0 "k" 7)
      1800001 "k").1 = none ∧
    (getFromCache (saveToCache (fun _ => none : CacheState ℕ) 0 "k" 7)
      1800001 "k").2 "k" = none := by
  have h := cache_ttl_roundtrip (fun _ => none : CacheState ℕ) "k" 7 0 1800001
  exact ⟨h.1, (h.2 (by decide)).1, (h.2 (by decide)).2⟩

/-- Claim C3: with no prior refresh recorded (and the clock at or past
`REFRESH_COOLDOWN`, as any real `Date.now()` is), `canRefresh` is true and
`getRemainingCooldown` is `0`; with a refresh recorded at `t`, `canRefresh`
at `now` is true exactly when `now - t ≥ REFRESH_COOLDOWN`, and
`getRemainingCooldown` is `max 0 (REFRESH_COOLDOWN - (now - t))`. -/
theorem governor_cooldown_query (st : GovState) (key : String) (now : ℤ) :
    (st key = none → REFRESH_COOLDOWN ≤ now →
      canRefresh st now key = true ∧ getRemainingCooldown st now key = 0) ∧
    (∀ t : ℤ, st key = some t →
      (canRefresh st now key = true ↔ REFRESH_COOLDOWN ≤ now - t) ∧
      getRemainingCooldown st now key =
        max 0 (REFRESH_COOLDOWN - (now - t))) := by
  constructor
  · intro hnone hnow
    constructor
    · simp [canRefresh, lastRefreshOf, hnone]
      omega
    · simp [getRemainingCooldown, lastRefreshOf, hnone]
      omega
  · intro t ht
    constructor
    · simp [canRefresh, lastRefreshOf, ht]
    · simp [getRemainingCooldown, lastRefreshOf, ht]

/-- Witness for `governor_cooldown_query`: a fresh key at
`now = REFRESH_COOLDOWN`, and a key recorded at `t = 5` read at
`now = 600005`. -/
theorem governor_cooldown_query_witness :
    (canRefresh (fun _ => none) 600000 "k" = true ∧
      getRemainingCooldown (fun _ => none) 600000 "k" = 0) ∧
    ((canRefresh (fun _ => some 5) 600005 "k" = true ↔
        REFRESH_COOLDOWN ≤ 600005 - 5) ∧
      getRemainingCooldown (fun _ => some 5) 600005 "k" =
        max 0 (REFRESH_COOLDOWN - (600005 - 5))) := by
  exact ⟨(governor_cooldown_query (fun _ => none) "k" 600000).1 rfl
      (by decide),
    (governor_cooldown_query (fun _ => some 5) "k" 600005).2 5 rfl⟩

/-- Claim C7: `formatCooldown` renders `"{minutes}m {seconds}s"` with
ceiling-rounding on total seconds: seconds are `⌈d / 1000⌉ % 60` and minutes
`⌈d / 1000⌉ / 60` (integer division on the nonnegative total), with
`formatCooldown 1 = "0m 1s"`, `formatCooldown 0 = "0m 0s"` and
`formatCooldown 90000 = "1m 30s"`. -/
theorem formatCooldown_spec :
    (∀ d : ℕ, formatCooldown (d : ℚ) =
      toString ((⌈(d : ℚ) / 1000⌉ : ℤ) / 60) ++ "m " ++
        toString ((⌈(d : ℚ) / 1000⌉ : ℤ) % 60) ++ "s") ∧
    formatCooldown 1 = "0m 1s" ∧ formatCooldown 0 = "0m 0s" ∧
    formatCooldown 90000 = "1m 30s" := by
  have hgen : ∀ d : ℕ, formatCooldown (d : ℚ) =
      toString ((⌈(d : ℚ) / 1000⌉ : ℤ) / 60) ++ "m " ++
        toString ((⌈(d : ℚ) / 1000⌉ : ℤ) % 60) ++ "s" := by
    intro d
    have hT : (0 : ℤ) ≤ ⌈(d : ℚ) / 1000⌉ :=
      Int.ceil_nonneg (by positivity)
    have hfloor : ⌊((⌈(d : ℚ) / 1000⌉ : ℤ) : ℚ) / 60⌋ =
        ⌈(d : ℚ) / 1000⌉ / 60 := by
      have := Rat.floor_intCast_div_natCast ⌈(d : ℚ) / 1000⌉ 60
      simpa using this
    unfold formatCooldown jsRem
    simp [hT, hfloor]
  have hc1 : (⌈((1 : ℕ) : ℚ) / 1000⌉ : ℤ) = 1 := by
    rw [Int.ceil_eq_iff]
    norm_num
  have hc0 : (⌈((0 : ℕ) : ℚ) / 1000⌉ : ℤ) = 0 := by
    norm_num
  have hc90 : (⌈((90000 : ℕ) : ℚ) / 1000⌉ : ℤ) = 90 := by
    rw [Int.ceil_eq_iff]
    norm_num
  refine ⟨hgen, ?_, ?_, ?_⟩
  · have := hgen 1
    rw [hc1] at this
    simpa using this
  · have := hgen 0
    rw [hc0] at this
    simpa using this
  · have := hgen 90000
    rw [hc90] at this
    simpa using this

/-- Claim C9 counterexample: the truthiness guard `if (key)` treats the
empty string like a missing argument, so `clearCache("")` clears the whole
table.  With the key `""` absent and the distinct sibling `"x"` populated,
after `clearCache("")` the sibling's entry is gone and `getFromCache("x")`
returns `null` — refuting both "removes only the entry for `k`" and "no-op
on an absent key" at `k = ""`. -/
theorem clearCache_empty_key_counterexample :
    (fun s => if s = "x" then some (⟨9, 0⟩ : CacheItem ℕ) else none) ""
      = none ∧
    clearCache
      (fun s => if s = "x" then some (⟨9, 0⟩ : CacheItem ℕ) else none)
      (some "") "x" = none ∧
    (getFromCache
      (clearCache
        (fun s => if s = "x" then some (⟨9, 0⟩ : CacheItem ℕ) else none)
        (some "")) 0 "x").1 = none := by
  refine ⟨rfl, rfl, rfl⟩

/-- Claim C9 (amended): for every **non-empty** key `k`, `clearCache(k)`
removes the entry for `k` and only that entry; a distinct populated sibling
`k2` still answers `getFromCache` within its TTL; `clearCache` on an absent
non-empty key leaves the table unchanged; and for the falsy key `""` (as
for a missing argument) `clearCache` clears every entry. -/
theorem clearCache_scope {α : Type} (st : CacheState α) (k k2 : String)
    (h : k ≠ k2) (hk : k ≠ "") :
    clearCache st (some k) k = none ∧
    (∀ x, x ≠ k → clearCache st (some k) x = st x) ∧
    (∀ (v2 : α) (t2 now : ℤ), st k2 = some ⟨v2, t2⟩ →
      now - t2 ≤ CACHE_DURATION →
      (getFromCache (clearCache st (some k)) now k2).1 = some v2) ∧
    (st k = none → clearCache st (some k) = st) ∧
    clearCache st (some "") = fun _ => none := by
  have hck : clearCache st (some k) = fun x => if x = k then none else st x := by
    simp [clearCache, hk]
  refine ⟨?_, fun x hx => ?_, fun v2 t2 now h2 hfresh => ?_, fun habs => ?_,
    ?_⟩
  · rw [hck]
    simp
  · rw [hck]
    simp [hx]
  · have hk2 : clearCache st (some k) k2 = some ⟨v2, t2⟩ := by
      rw [hck]
      simp [Ne.symm h, h2]
    simp [getFromCache, hk2, not_lt.mpr hfresh]
  · rw [hck]
    funext x
    by_cases hx : x = k
    · subst hx
      simp [habs]
    · simp [hx]
  · simp [clearCache]

/-- Witness for `clearCache_scope`: the distinct non-empty keys `"a"` and
`"b"`, with `"b"` populated and read at an instant inside its TTL, and
`"a"` absent. -/
theorem clearCache_scope_witness :
    clearCache (fun s => if s = "b" then some ⟨9, 0⟩ else none : CacheState ℕ)
      (some "a") "a" = none ∧
    (getFromCache
      (clearCache
        (fun s => if s = "b" then some ⟨9, 0⟩ else none : CacheState ℕ)
        (some "a")) 10 "b").1 = some 9 ∧
    clearCache (fun s => if s = "b" then some ⟨9, 0⟩ else none : CacheState ℕ)
      (some "a") =
      (fun s => if s = "b" then some ⟨9, 0⟩ else none : CacheState ℕ) := by
  have h := clearCache_scope
    (fun s => if s = "b" then some ⟨9, 0⟩ else none : CacheState ℕ) "a" "b"
    (by decide) (by decide)
  exact ⟨h.1, h.2.2.1 9 0 10 (by simp) (by decide), h.2.2.2.1 (by simp)⟩

/-- Only `markRefreshed` touches the governor table: a run of operations
containing no `mark k` leaves the governor entry for `k` unchanged
(cache saves, reads and clears included). -/
theorem runOps_gov_eq {α : Type} (ops : List (ℤ × Op α)) (s : Sys α)
    (k : String) (hno : ∀ p ∈ ops, p.2 ≠ Op.mark k) :
    (runOps s ops).gov k = s.gov k := by
  induction ops generalizing s with
  | nil => rfl
  | cons p rest ih =>
    obtain ⟨t, op⟩ := p
    have hrest : ∀ q ∈ rest, q.2 ≠ Op.mark k := fun q hq =>
      hno q (List.mem_cons_of_mem _ hq)
    have hstep : (stepOp s t op).gov k = s.gov k := by
      cases op with
      | save key v => rfl
      | get key => rfl
      | clear key => rfl
      | mark key =>
        have hk : key ≠ k := fun hkk => by
          exact hno (t, Op.mark key) (List.mem_cons_self _ _)
            (by rw [hkk])
        simp [stepOp, markRefreshed, Ne.symm hk]
    rw [runOps, ih (stepOp s t op) hrest, hstep]

/-- Claim C4: in a trace of timestamped operations at non-decreasing times,
after `markRefreshed(k)` at `t` with no later `markRefreshed(k)`,
`canRefresh(k)` is false at every instant in `[t, t + REFRESH_COOLDOWN)`,
immediately after the mark `getRemainingCooldown(k)` equals
`REFRESH_COOLDOWN`, and at every instant at or past `t + REFRESH_COOLDOWN`,
`canRefresh(k)` is true and `getRemainingCooldown(k)` is `0` — all of this
independent of the cache operations in the trace. -/
theorem cooldown_after_mark {α : Type} (s : Sys α) (k : String) (t : ℤ)
    (ops : List (ℤ × Op α))
    (hno : ∀ p ∈ ops, p.2 ≠ Op.mark k)
    (_hmono : List.Chain' (fun a b => a ≤ b) (t :: ops.map Prod.fst)) :
    (∀ now : ℤ, t ≤ now → now - t < REFRESH_COOLDOWN →
      canRefresh (runOps (stepOp s t (Op.mark k)) ops).gov now k = false) ∧
    canRefresh (runOps (stepOp s t (Op.mark k)) ops).gov t k = false ∧
    getRemainingCooldown (runOps (stepOp s t (Op.mark k)) ops).gov t k =
      REFRESH_COOLDOWN ∧
    (∀ now : ℤ, t + REFRESH_COOLDOWN ≤ now →
      canRefresh (runOps (stepOp s t (Op.mark k)) ops).gov now k = true ∧
      getRemainingCooldown (runOps (stepOp s t (Op.mark k)) ops).gov now k
        = 0) := by
  have hgov : (runOps (stepOp s t (Op.mark k)) ops).gov k = some t := by
    rw [runOps_gov_eq ops _ k hno]
    simp [stepOp, markRefreshed]
  have hlast : lastRefreshOf (runOps (stepOp s t (Op.mark k)) ops).gov k
      = t := by
    simp [lastRefreshOf, hgov]
  refine ⟨fun now h1 h2 => ?_, ?_, ?_, fun now hge => ⟨?_, ?_⟩⟩
  · simp [canRefresh, hlast]
    omega
  · simp [canRefresh, hlast, REFRESH_COOLDOWN]
  · simp [getRemainingCooldown, hlast, REFRESH_COOLDOWN]
  · simp [canRefresh, hlast]
    omega
  · simp [getRemainingCooldown, hlast]
    omega

/-- Witness for `cooldown_after_mark`: a mark of `"k"` at instant `100`,
followed by a cache save, a cache read and a mark of a different key, at
non-decreasing instants. -/
theorem cooldown_after_mark_witness :
    (∀ p ∈ [((150 : ℤ), Op.save "k" (3 : ℕ)), (200, Op.get "k"),
        (250, Op.mark "other")], p.2 ≠ Op.mark "k") ∧
    canRefresh (runOps (stepOp (Sys.mk (fun _ => none) (fun _ => none)) 100
        (Op.mark "k"))
        [((150 : ℤ), Op.save "k" (3 : ℕ)), (200, Op.get "k"),
          (250, Op.mark "other")]).gov 100 "k" = false ∧
    getRemainingCooldown (runOps (stepOp (Sys.mk (fun _ => none)
        (fun _ => none)) 100 (Op.mark "k"))
        [((150 : ℤ), Op.save "k" (3 : ℕ)), (200, Op.get "k"),
          (250, Op.mark "other")]).gov 100 "k" = REFRESH_COOLDOWN ∧
    canRefresh (runOps (stepOp (Sys.mk (fun _ => none) (fun _ => none)) 100
        (Op.mark "k"))
        [((150 : ℤ), Op.save "k" (3 : ℕ)), (200, Op.get "k"),
          (250, Op.mark "other")]).gov 600100 "k" = true := by
  have hno : ∀ p ∈ [((150 : ℤ), Op.save "k" (3 : ℕ)), (200, Op.get "k"),
      (250, Op.mark "other")], p.2 ≠ Op.mark "k" := by decide
  have h := cooldown_after_mark (Sys.mk (fun _ => none) (fun _ => none))
    "k" 100
    [((150 : ℤ), Op.save "k" (3 : ℕ)), (200, Op.get "k"),
      (250, Op.mark "other")]
    hno (by simp)
  exact ⟨hno, h.2.1, h.2.2.1, (h.2.2.2 600100 (by decide)).1⟩

/-! ## Claims about the synthesizer -/

/-- Every base price is at least 50 (all fixed overrides are, and the
generic branch is `(seed % 500) + 50`). -/
theorem basePriceFor_ge (ticker : String) : (50 : ℚ) ≤ basePriceFor ticker := by
  unfold basePriceFor
  split_ifs <;> norm_num

/-- Every per-period base volatility is positive. -/
theorem volBase_pos (period : String) : 0 < volBase period := by
  unfold volBase
  split_ifs <;> norm_num

/-- Every adjusted volatility is positive. -/
theorem volatility_pos (ticker period : String) :
    0 < volatility ticker period := by
  have h := volBase_pos period
  unfold volatility
  split_ifs <;> linarith

/-- Every per-period point count is positive. -/
theorem dataPoints_pos (period : String) : 0 < dataPoints period := by
  unfold dataPoints
  split_ifs <;> norm_num

/-- At loop index 0 every trigonometric argument is 0, so the first step
factor is exactly `1 + volatility`. -/
theorem stepFactor_zero (sin cos : ℚ → ℚ) (hsin : sin 0 = 0)
    (hcos : cos 0 = 1) (ticker period : String) :
    stepFactor sin cos ticker period 0 = 1 + volatility ticker period := by
  unfold stepFactor
  norm_num [hsin, hcos]

/-- `round2` moves a value up by at most `1/200`. -/
theorem round2_le (x : ℚ) : round2 x ≤ x + 1 / 200 := by
  have h := abs_sub_round (100 * x)
  rw [abs_le] at h
  unfold round2
  have h2 := h.1
  linarith

/-- `round2` moves a value down by at most `1/200`. -/
theorem le_round2 (x : ℚ) : x - 1 / 200 ≤ round2 x := by
  have h := abs_sub_round (100 * x)
  rw [abs_le] at h
  unfold round2
  have h2 := h.2
  linarith

/-- The synthesized series is `range`-shaped; its first point carries the
price after one multiplicative step. -/
theorem generate_getElem_zero (env : BrowserEnv) (sin cos : ℚ → ℚ)
    (ticker period : String) :
    (generateRealisticStockData env sin cos ticker period)[0]? =
      some { name := labelFor env period (dataPoints period) 0,
             value := round2 (priceAfter sin cos ticker period 1),
             relativeValue := none } := by
  unfold generateRealisticStockData
  rw [List.getElem?_map, List.getElem?_range (dataPoints_pos period)]
  rfl

/-- The first synthesized value is strictly positive: it is
`round2 (basePrice * (1 + volatility))` with `basePrice ≥ 50` and
`volatility > 0`. -/
theorem generate_first_value_pos (env : BrowserEnv) (sin cos : ℚ → ℚ)
    (hsin : sin 0 = 0) (hcos : cos 0 = 1) (ticker period : String)
    (q0 : SeriesPoint)
    (h0 : (generateRealisticStockData env sin cos ticker period)[0]?
      = some q0) :
    0 < q0.value := by
  rw [generate_getElem_zero] at h0
  have hq := Option.some.inj h0
  have hval : q0.value = round2 (priceAfter sin cos ticker period 1) := by
    rw [← hq]
  rw [hval]
  have h1 : priceAfter sin cos ticker period 1 =
      basePriceFor ticker * (1 + volatility ticker period) := by
    unfold priceAfter
    rw [stepFactor_zero sin cos hsin hcos]
    rfl
  rw [h1]
  have hb := basePriceFor_ge ticker
  have hv := volatility_pos ticker period
  have hlow := le_round2 (basePriceFor ticker * (1 + volatility ticker period))
  nlinarith

/-- `applyRelative` rewrites every point's `relativeValue` to
`((value / base) - 1) * 100` with the first point's value as base. -/
theorem applyRelative_getElem (s : List SeriesPoint) (q0 : SeriesPoint)
    (h0 : s[0]? = some q0) (i : ℕ) (pi qi : SeriesPoint)
    (hpi : (applyRelative s)[i]? = some pi) (hqi : s[i]? = some qi) :
    pi.relativeValue = some ((qi.value / q0.value - 1) * 100) := by
  cases s with
  | nil => simp at h0
  | cons a as =>
    have ha : a = q0 := by
      simpa using h0
    subst ha
    unfold applyRelative at hpi
    rw [List.getElem?_map, hqi] at hpi
    have := Option.some.inj hpi
    rw [← this]

/-- Claim C5: on the synthesized series in relative mode (with the ambient
facts `sin 0 = 0`, `cos 0 = 1` about the real `Math.sin` / `Math.cos`), the
series is non-empty, the first point's `relativeValue` is exactly `0`, and
every point's `relativeValue` is `((value / value₀) - 1) * 100` with the
first point's value as the shared base. -/
theorem relative_value_invariant (env : BrowserEnv) (sin cos : ℚ → ℚ)
    (hsin : sin 0 = 0) (hcos : cos 0 = 1) (ticker period : String) :
    applyRelative (generateRealisticStockData env sin cos ticker period)
      ≠ [] ∧
    (∀ p, (applyRelative
        (generateRealisticStockData env sin cos ticker period))[0]?
        = some p → p.relativeValue = some 0) ∧
    (∀ (i : ℕ) (pi qi q0 : SeriesPoint),
      (applyRelative
        (generateRealisticStockData env sin cos ticker period))[i]?
        = some pi →
      (generateRealisticStockData env sin cos ticker period)[i]? = some qi →
      (generateRealisticStockData env sin cos ticker period)[0]? = some q0 →
      pi.relativeValue = some ((qi.value / q0.value - 1) * 100)) := by
  have h0 := generate_getElem_zero env sin cos ticker period
  refine ⟨?_, fun p hp => ?_, fun i pi qi q0 hpi hqi hq0 => ?_⟩
  · cases hgen : generateRealisticStockData env sin cos ticker period with
    | nil => rw [hgen] at h0; simp at h0
    | cons a as => simp [applyRelative, hgen]
  · have hrel := applyRelative_getElem _ _ h0 0 p _ hp h0
    have hpos := generate_first_value_pos env sin cos hsin hcos ticker
      period _ h0
    rw [hrel, div_self (ne_of_gt hpos)]
    norm_num
  · exact applyRelative_getElem _ _ hq0 i pi qi hpi hqi

/-- Witness for `relative_value_invariant`: concrete trig stand-ins
satisfying the two hypotheses, at ticker `"AAPL"` and period `"1mo"`. -/
theorem relative_value_invariant_witness :
    ((fun _ => 0 : ℚ → ℚ) 0 = 0 ∧ (fun _ => 1 : ℚ → ℚ) 0 = 1) ∧
    (∀ p, (applyRelative (generateRealisticStockData ⟨0, fun _ => "",
        fun _ => ""⟩ (fun _ => 0) (fun _ => 1) "AAPL" "1mo"))[0]?
        = some p → p.relativeValue = some 0) := by
  exact ⟨⟨rfl, rfl⟩,
    (relative_value_invariant ⟨0, fun _ => "", fun _ => ""⟩
      (fun _ => 0) (fun _ => 1) rfl rfl "AAPL" "1mo").2.1⟩

/-- Claim C1 counterexample: the claim as stated is false.  Two calls with
ticker `"A"` and period `"1d"` in the same process, one observing
`getHours() = 0` and the other `getHours() = 1` (one hour later), return
different series: the first point's label is `"12AM"` in the first call and
`"-11AM"` in the second (the trig stand-ins are irrelevant — the labels read
only the clock). -/
theorem synthesizer_clock_counterexample :
    generateRealisticStockData ⟨0, fun _ => "", fun _ => ""⟩ (fun _ => 0)
        (fun _ => 0) "A" "1d" ≠
      generateRealisticStockData ⟨1, fun _ => "", fun _ => ""⟩ (fun _ => 0)
        (fun _ => 0) "A" "1d" := by
  intro h
  have h0 := generate_getElem_zero ⟨0, fun _ => "", fun _ => ""⟩
    (fun _ => 0) (fun _ => 0) "A" "1d"
  have h1 := generate_getElem_zero ⟨1, fun _ => "", fun _ => ""⟩
    (fun _ => 0) (fun _ => 0) "A" "1d"
  rw [h, h1] at h0
  have hname := congrArg SeriesPoint.name (Option.some.inj h0)
  revert hname
  decide

/-- Claim C1 (amended): the numeric walk is deterministic — two calls with
the same ticker and period produce the same value at every index and the
same length, whatever clock/locale environments the two calls observe (and
therefore byte-identical series whenever the observed environment, in
particular the clock hour, is the same; only the labels can differ across
environments). -/
theorem synthesizer_values_deterministic (sin cos : ℚ → ℚ)
    (ticker period : String) (env1 env2 : BrowserEnv) :
    (generateRealisticStockData env1 sin cos ticker period).map
        SeriesPoint.value =
      (generateRealisticStockData env2 sin cos ticker period).map
        SeriesPoint.value ∧
    (generateRealisticStockData env1 sin cos ticker period).length =
      (generateRealisticStockData env2 sin cos ticker period).length := by
  constructor
  · simp [generateRealisticStockData, List.map_map, Function.comp]
  · simp [generateRealisticStockData]

/-- Claim C6: the synthesized series always has exactly the per-period
point count — 24 for `"1d"`, 40 for `"5d"`, 30 for `"1mo"`, 90 for `"3mo"`,
26 for `"6mo"`, and 52 for `"1y"` and every other period string. -/
theorem series_length_spec (env : BrowserEnv) (sin cos : ℚ → ℚ)
    (ticker : String) :
    (generateRealisticStockData env sin cos ticker "1d").length = 24 ∧
    (generateRealisticStockData env sin cos ticker "5d").length = 40 ∧
    (generateRealisticStockData env sin cos ticker "1mo").length = 30 ∧
    (generateRealisticStockData env sin cos ticker "3mo").length = 90 ∧
    (generateRealisticStockData env sin cos ticker "6mo").length = 26 ∧
    (generateRealisticStockData env sin cos ticker "1y").length = 52 ∧
    (∀ period : String, period ≠ "1d" → period ≠ "5d" → period ≠ "1mo" →
      period ≠ "3mo" → period ≠ "6mo" →
      (generateRealisticStockData env sin cos ticker period).length
        = 52) := by
  have hlen : ∀ p : String,
      (generateRealisticStockData env sin cos ticker p).length
        = dataPoints p := by
    intro p
    unfold generateRealisticStockData
    rw [List.length_map, List.length_range]
  refine ⟨?_, ?_, ?_, ?_, ?_, ?_, fun period h1 h2 h3 h4 h5 => ?_⟩
  · rw [hlen]; decide
  · rw [hlen]; decide
  · rw [hlen]; decide
  · rw [hlen]; decide
  · rw [hlen]; decide
  · rw [hlen]; decide
  · rw [hlen]
    unfold dataPoints
    rw [if_neg h1, if_neg h2, if_neg h3, if_neg h4, if_neg h5]

/-- Witness for `series_length_spec`: the catch-all branch at the concrete
unsupported period string `"2y"`. -/
theorem series_length_spec_witness :
    (generateRealisticStockData ⟨0, fun _ => "", fun _ => ""⟩ (fun _ => 0)
      (fun _ => 0) "AAPL" "2y").length = 52 := by
  exact (series_length_spec ⟨0, fun _ => "", fun _ => ""⟩ (fun _ => 0)
    (fun _ => 0) "AAPL").2.2.2.2.2.2 "2y" (by decide) (by decide)
    (by decide) (by decide) (by decide)

/-! ## API service (`src/utils/apiService.ts`) -/

/-- `interface StockPrediction` from `apiService.ts`. -/
structure StockPrediction where
  date : String
  model_version : String
  percent_change : ℚ
  pred_1d : ℚ
  pred_2d : ℚ
  pred_3d : ℚ
  pred_4d : ℚ
  pred_5d : ℚ
  stock_name : String
  volatility_score : ℚ
deriving DecidableEq

/-- `getMockStockPrediction(stockCode)`: the synthesized fallback
prediction.  The two `Math.random()` draws and the
`new Date().toISOString().split('T')[0]` date string are explicit
parameters. -/
def getMockStockPrediction (rnd1 rnd2 : ℚ) (today : String)
    (stockCode : String) : StockPrediction :=
  let seedValue := tickerSeed stockCode
  let isPositive := seedValue % 2 = 0
  let percentChange := round2 (rnd1 * 5 * (if isPositive then 1 else -1))
  let basePrice : ℚ := ((seedValue % 200 : ℕ) : ℚ) + 100
  { date := today
    model_version := "v1-fallback"
    percent_change := percentChange
    pred_1d := basePrice * (1 + percentChange * 0.2 / 100)
    pred_2d := basePrice * (1 + percentChange * 0.4 / 100)
    pred_3d := basePrice * (1 + percentChange * 0.6 / 100)
    pred_4d := basePrice * (1 + percentChange * 0.8 / 100)
    pred_5d := basePrice * (1 + percentChange / 100)
    stock_name := stockCode
    volatility_score :=
      if isPositive then (⌊rnd2 * 3⌋ : ℚ) else -(⌊rnd2 * 3⌋ : ℚ) - 1 }

/-- Outcome of the upstream call in `fetchStockPredictions`: a 2xx response
with a well-formed body, or one of the three failure modes the catch block
can see. -/
inductive UpstreamResult where
  | ok (data : StockPrediction)
  | httpError (status : ℕ)
  | malformedBody
  | transportError

/-- The try-block of `fetchStockPredictions`: `fetch` may throw (transport
error), a non-2xx response throws, `response.json()` may throw (malformed
body); a good response yields its payload. -/
def fetchAttempt (res : UpstreamResult) : Except String StockPrediction :=
  match res with
  | UpstreamResult.ok data => Except.ok data
  | UpstreamResult.httpError status =>
    Except.error ("Failed to fetch predictions: " ++ toString status)
  | UpstreamResult.malformedBody => Except.error "malformed body"
  | UpstreamResult.transportError => Except.error "network error"

/-- `fetchStockPredictions(stockCode)`: the catch block turns every thrown
error into the mock fallback, so a `StockPrediction` is produced in every
case (the return type is total, not optional). -/
def fetchStockPredictions (res : UpstreamResult) (rnd1 rnd2 : ℚ)
    (today : String) (stockCode : String) : StockPrediction :=
  match fetchAttempt res with
  | Except.ok data => data
  | Except.error _ => getMockStockPrediction rnd1 rnd2 today stockCode

/-- Numeric view of the `AlphaVantageQuote` strings produced by
`getStockFallbackData`: each field holds the number whose decimal rendering
the source puts in the corresponding string (`open` is a Lean keyword, so
that field is `openPrice`; the banded `marketCap` display string is omitted
— no claim touches it). -/
structure QuoteNum where
  symbol : String
  openPrice : ℚ
  high : ℚ
  low : ℚ
  price : ℚ
  volume : ℚ
  previousClose : ℚ
  change : ℚ
  changePercent : ℚ

/-- `getStockFallbackData(stockCode)`: fixed quotes for the six well-known
tickers, otherwise the seeded generic quote.  `Math.sin` and the
`Math.random()` draw used for `prevClose` are explicit parameters. -/
def getStockFallbackData (sin : ℚ → ℚ) (rnd : ℚ) (stockCode : String) :
    QuoteNum :=
  if stockCode.toUpper = "META" then
    { symbol := "META", openPrice := 595.25, high := 596.03, low := 586.58,
      price := 587.31, volume := 10600650, previousClose := 599.27,
      change := -11.96, changePercent := -1.99 }
  else if stockCode.toUpper = "AAPL" then
    { symbol := "AAPL", openPrice := 195.89, high := 199.62, low := 195.76,
      price := 198.52, volume := 48257300, previousClose := 197.57,
      change := 0.95, changePercent := 0.48 }
  else if stockCode.toUpper = "MSFT" then
    { symbol := "MSFT", openPrice := 415.25, high := 420.82, low := 413.85,
      price := 417.52, volume := 19879800, previousClose := 415.42,
      change := 2.10, changePercent := 0.51 }
  else if stockCode.toUpper = "GOOGL" then
    { symbol := "GOOGL", openPrice := 162.21, high := 164.68, low := 161.95,
      price := 164.32, volume := 22702400, previousClose := 163.02,
      change := 1.30, changePercent := 0.80 }
  else if stockCode.toUpper = "AMZN" then
    { symbol := "AMZN", openPrice := 178.35, high := 182.63, low := 177.86,
      price := 181.22, volume := 36421500, previousClose := 179.62,
      change := 1.60, changePercent := 0.89 }
  else if stockCode.toUpper = "TSLA" then
    { symbol := "TSLA", openPrice := 273.10, high := 277.73, low := 271.35,
      price := 275.35, volume := 76715792, previousClose := 280.26,
      change := -4.91, changePercent := -1.75 }
  else
    let seedValue := tickerSeed stockCode
    let isPositive := seedValue % 2 = 0
    let basePrice : ℚ := ((seedValue % 500 : ℕ) : ℚ) + 50
    let price := round2 (basePrice + sin ((seedValue : ℚ) / 10) * 5)
    let prevClose := price - (if isPositive then (-2 : ℚ) else 2) - rnd * 5
    let change := price - prevClose
    let volumeBase := seedValue % 100
    let volume : ℚ :=
      if volumeBase < 30 then ((volumeBase : ℚ) + 5) * 100000
      else if volumeBase < 70 then ((volumeBase : ℚ) + 10) * 1000000
      else ((volumeBase : ℚ) / 10 + 5) * 10000000
    { symbol := stockCode
      openPrice := round2 prevClose
      high := round2 (price * 1.01)
      low := round2 (price * 0.98)
      price := price
      volume := volume
      previousClose := round2 prevClose
      change := round2 change
      changePercent := round2 (change / prevClose * 100) }

/-! ## Claims about the API service -/

/-- Claim C8: whenever the upstream call fails in any way — non-2xx
response, malformed body, or thrown transport error —
`fetchStockPredictions` returns the seeded mock fallback (whose
`model_version` is `"v1-fallback"`) instead of propagating the error; by
its (total) type it yields a `StockPrediction` in every case. -/
theorem fetch_predictions_total_fallback (res : UpstreamResult)
    (rnd1 rnd2 : ℚ) (today stockCode : String)
    (hfail : ∀ d, res ≠ UpstreamResult.ok d) :
    fetchStockPredictions res rnd1 rnd2 today stockCode =
      getMockStockPrediction rnd1 rnd2 today stockCode ∧
    (fetchStockPredictions res rnd1 rnd2 today stockCode).model_version
      = "v1-fallback" := by
  have hmock : fetchStockPredictions res rnd1 rnd2 today stockCode =
      getMockStockPrediction rnd1 rnd2 today stockCode := by
    cases res with
    | ok d => exact absurd rfl (hfail d)
    | httpError s => rfl
    | malformedBody => rfl
    | transportError => rfl
  refine ⟨hmock, ?_⟩
  rw [hmock]
  rfl

/-- Witness for `fetch_predictions_total_fallback` at a thrown transport
error for ticker `"TSLA"`. -/
theorem fetch_predictions_total_fallback_witness :
    (∀ d, UpstreamResult.transportError ≠ UpstreamResult.ok d) ∧
    fetchStockPredictions UpstreamResult.transportError 0 0 "2025-01-01"
        "TSLA" =
      getMockStockPrediction 0 0 "2025-01-01" "TSLA" ∧
    (fetchStockPredictions UpstreamResult.transportError 0 0 "2025-01-01"
        "TSLA").model_version = "v1-fallback" := by
  have hfail : ∀ d, UpstreamResult.transportError ≠ UpstreamResult.ok d :=
    fun d h => UpstreamResult.noConfusion h
  have h := fetch_predictions_total_fallback UpstreamResult.transportError
    0 0 "2025-01-01" "TSLA" hfail
  exact ⟨hfail, h.1, h.2⟩

/-- On the generic quote path, once the rounded price is at least
`45 - 1/200`, the derived `high`/`low` roundings stay ordered around it and
everything is positive. -/
theorem generic_quote_bounds (p : ℚ) (hp : 45 - 1 / 200 ≤ p) :
    round2 (p * 0.98) ≤ p ∧ p ≤ round2 (p * 1.01) ∧
    0 < round2 (p * 0.98) ∧ 0 < p ∧ 0 < round2 (p * 1.01) := by
  have hlo1 := round2_le (p * 0.98)
  have hlo2 := le_round2 (p * 0.98)
  have hhi1 := round2_le (p * 1.01)
  have hhi2 := le_round2 (p * 1.01)
  refine ⟨?_, ?_, ?_, ?_, ?_⟩ <;> linarith

/-- Claim C10: for every ticker — the six fixed overrides and the generic
seeded path — the fallback quote satisfies `low ≤ price ≤ high`, all three
strictly positive (with the ambient fact `|Math.sin| ≤ 1`). -/
theorem fallback_quote_ordered (sin : ℚ → ℚ) (rnd : ℚ) (stockCode : String)
    (hsin : ∀ x : ℚ, |sin x| ≤ 1) :
    (getStockFallbackData sin rnd stockCode).low ≤
      (getStockFallbackData sin rnd stockCode).price ∧
    (getStockFallbackData sin rnd stockCode).price ≤
      (getStockFallbackData sin rnd stockCode).high ∧
    0 < (getStockFallbackData sin rnd stockCode).low ∧
    0 < (getStockFallbackData sin rnd stockCode).price ∧
    0 < (getStockFallbackData sin rnd stockCode).high := by
  have hs := hsin ((tickerSeed stockCode : ℚ) / 10)
  rw [abs_le] at hs
  have hx : (45 : ℚ) ≤ ((tickerSeed stockCode % 500 : ℕ) : ℚ) + 50 +
      sin ((tickerSeed stockCode : ℚ) / 10) * 5 := by
    have hc := Nat.cast_nonneg (α := ℚ) (tickerSeed stockCode % 500)
    nlinarith [hs.1]
  have hp : (45 : ℚ) - 1 / 200 ≤
      round2 (((tickerSeed stockCode % 500 : ℕ) : ℚ) + 50 +
        sin ((tickerSeed stockCode : ℚ) / 10) * 5) := by
    have hr := le_round2 (((tickerSeed stockCode % 500 : ℕ) : ℚ) + 50 +
      sin ((tickerSeed stockCode : ℚ) / 10) * 5)
    linarith
  have hgen := generic_quote_bounds _ hp
  unfold getStockFallbackData
  split_ifs <;> first | exact hgen | norm_num

/-- Witness for `fallback_quote_ordered`: the zero stand-in for `Math.sin`
(which is bounded by 1 in absolute value) at the generic ticker `"XYZ"`. -/
theorem fallback_quote_ordered_witness :
    (∀ x : ℚ, |(fun _ => (0 : ℚ)) x| ≤ 1) ∧
    ((getStockFallbackData (fun _ => 0) 0 "XYZ").low ≤
      (getStockFallbackData (fun _ => 0) 0 "XYZ").price ∧
    (getStockFallbackData (fun _ => 0) 0 "XYZ").price ≤
      (getStockFallbackData (fun _ => 0) 0 "XYZ").high ∧
    0 < (getStockFallbackData (fun _ => 0) 0 "XYZ").low ∧
    0 < (getStockFallbackData (fun _ => 0) 0 "XYZ").price ∧
    0 < (getStockFallbackData (fun _ => 0) 0 "XYZ").high) := by
  have hs : ∀ x : ℚ, |(fun _ => (0 : ℚ)) x| ≤ 1 := fun x => by norm_num
  exact ⟨hs, fallback_quote_ordered (fun _ => 0) 0 "XYZ" hs⟩

end StockVision
